import Mathlib

/-
Shallow embedding of the SnedBot repository (HyperGH/SnedBot), covering the
code needed by the verified claims: the shared helpers (format_reason), the
comfiness forecast gauge, the centralized command error handler, the tag alias
command, the reminder co-recipient handler, the starboard star_message routine,
and the moderation action engine (timeout chunking, timeout reapplication on
rejoin, ban/tempban).

Conventions: platform snowflake ids are Nat; timestamps are Int epoch seconds
(Python datetimes are modelled at second granularity, matching the use of
round(….timestamp()) in the source); Python strings are List Char.
-/

namespace Sned

namespace Helpers

/-- A guild member as seen by `format_reason` in utils/helpers.py. The Python
expression str(moderator) is modelled by the `name` field, moderator.id by
`id`. -/
structure Member where
  name : List Char
  id : Nat
deriving DecidableEq

/-- The string built by the f-string in utils/helpers.py line 505:
f"\x7bmoderator\x7d (\x7bmoderator.id\x7d): " followed by the reason. -/
def moderatorTag (m : Member) : List Char :=
  m.name ++ (" (").toList ++ (Nat.repr m.id).toList ++ ("): ").toList

/-- Translation of utils/helpers.py lines 495-510, `format_reason`.
`reason = none` models Python None; `max_length = none` models None, and the
Python truthiness test `if max_length` also treats 0 as false. -/
def format_reason (reason : Option (List Char)) (moderator : Option Member)
    (max_length : Option Nat) : List Char :=
  let r0 : List Char :=
    match reason with
    | none => ("No reason provided.").toList
    | some s => if s = [] then ("No reason provided.").toList else s
  let r1 : List Char :=
    match moderator with
    | none => r0
    | some m => moderatorTag m ++ r0
  match max_length with
  | none => r1
  | some ml => if 0 < ml ∧ ml < r1.length then r1.take (ml - 3) ++ ("...").toList else r1

/-- The claim-side first step: an empty or missing reason is replaced by the
default text. -/
def defaultedReason (reason : Option (List Char)) : List Char :=
  match reason with
  | none => ("No reason provided.").toList
  | some s => if s = [] then ("No reason provided.").toList else s

/-- The claim-side truncation step: when the string exceeds `ml`, keep the
first `ml - 3` characters and append an ellipsis. -/
def truncated (ml : Nat) (s : List Char) : List Char :=
  if ml < s.length then s.take (ml - 3) ++ ("...").toList else s

end Helpers

namespace FunExt

/-- Width of the /comf gauge, src/extensions/fun.py line 1004. -/
def COMF_PROGRESS_BAR_WIDTH : Nat := 20

/-- CPython int() applied to a rational: truncation toward zero. -/
def pyInt (q : ℚ) : ℤ :=
  if q < 0 then -(Int.floor (-q)) else Int.floor q

/-- Translation of src/extensions/fun.py line 1061:
rounded_comf = int(comf_value * COMF_PROGRESS_BAR_WIDTH / 100). -/
def rounded_comf (comf_value : ℚ) : ℤ :=
  pyInt (comf_value * (COMF_PROGRESS_BAR_WIDTH : ℚ) / 100)

/-- Translation of src/extensions/fun.py line 1062:
the block-bar string, filled cells followed by spaces. Python string
repetition with a negative count yields the empty string, which `Int.toNat`
models exactly. -/
def progress_bar (comf_value : ℚ) : List Char :=
  let r : ℤ := rounded_comf comf_value
  List.replicate r.toNat '█' ++ List.replicate ((COMF_PROGRESS_BAR_WIDTH - r).toNat) ' '

end FunExt

namespace CommandHandler

/-- Platform permission bits, as far as the error handler needs them. -/
inductive Permission where
  | banMembers
  | kickMembers
  | moderateMembers
  | manageMessages
  | viewChannel
  | sendMessages
  | manageRoles
deriving DecidableEq

/-- Modelled from the spec: get_perm_str (src/etc/perms_str.py is not among the
inspected sources) renders each permission bit as its human-readable name;
the handler shows get_perm_str(error.missing_permissions) with the separator
replaced by a comma, i.e. the list of names of exactly the missing bits. -/
def get_perm_str (p : Permission) : List Char :=
  match p with
  | .banMembers => ("Ban Members").toList
  | .kickMembers => ("Kick Members").toList
  | .moderateMembers => ("Timeout Members").toList
  | .manageMessages => ("Manage Messages").toList
  | .viewChannel => ("View Channel").toList
  | .manageRoles => ("Manage Roles").toList
  | .sendMessages => ("Send Messages").toList

/-- The exception categories distinguished by the isinstance chain of
application_error_handler, src/src/extensions/command_handler.py lines 74-226.
The Python classes are pairwise unrelated, so each exception matches exactly
one constructor. `other` stands for any exception matching none of the listed
classes. -/
inductive AppError where
  | userBlacklisted
  | invokerMissingPermissions (perms : List Permission)
  | botMissingPermissions (perms : List Permission)
  | underCooldown (retry_after : Nat)
  | maxConcurrencyReached
  | botRoleHierarchy
  | roleHierarchy
  | asyncioTimeout
  | internalServerError
  | forbidden (text : List Char)
  | memberExpected
  | optionConverterFailure (optionName : List Char)
  | other (text : List Char)
deriving DecidableEq

/-- The user-facing ephemeral responses produced by the handler, identified by
their embed title, with the data interpolated into the description. -/
inductive Response where
  | accessTerminated
  | missingPermissions (names : List (List Char))
  | botMissingPerms (names : List (List Char))
  | cooldownPending (retry_after : Nat)
  | maxConcurrency
  | botRoleHierarchyResp
  | roleHierarchyResp
  | actionTimedOut
  | discordServerError
  | forbiddenResp (text : List Char)
  | memberExpectedResp
  | optionConversionError (optionName : List Char)
  | unhandledException (text : List Char)
deriving DecidableEq

/-- Translation of application_error_handler: the ordered isinstance chain of
src/src/extensions/command_handler.py lines 76-225 becomes a total match.
The two duplicated RoleHierarchyError / BotRoleHierarchyError branches at
lines 175-193 are dead code (the earlier branches at lines 125-143 shadow
them), so they do not appear as separate outcomes. -/
def application_error_handler (e : AppError) : Response :=
  match e with
  | .userBlacklisted => .accessTerminated
  | .invokerMissingPermissions perms => .missingPermissions (perms.map get_perm_str)
  | .botMissingPermissions perms => .botMissingPerms (perms.map get_perm_str)
  | .underCooldown retry_after => .cooldownPending retry_after
  | .maxConcurrencyReached => .maxConcurrency
  | .botRoleHierarchy => .botRoleHierarchyResp
  | .roleHierarchy => .roleHierarchyResp
  | .asyncioTimeout => .actionTimedOut
  | .internalServerError => .discordServerError
  | .forbidden text => .forbiddenResp text
  | .memberExpected => .memberExpectedResp
  | .optionConverterFailure optionName => .optionConversionError optionName
  | .other text => .unhandledException text

end CommandHandler

namespace Tags

/-- A tag record, src/src/extensions/tags.py / the Tag model. Names and
aliases are stored case-folded; the model takes all strings already folded. -/
structure Tag where
  guild_id : Nat
  name : List Char
  owner_id : Nat
  aliases : List (List Char)
deriving DecidableEq

/-- Modelled from the spec: Tag.fetch (the Tag model source is not among the
inspected files) resolves a case-folded string to the tag in the guild whose
name or one of whose aliases equals it. -/
def fetchTag (tags : List Tag) (name : List Char) : Option Tag :=
  tags.find? (fun t => t.name == name || t.aliases.contains name)

/-- Responses of the /tags alias command. -/
inductive TagAliasResponse where
  | aliasTaken
  | tooManyAliases
  | aliasCreated
  | invalidTag
deriving DecidableEq

/-- Translation of tag_alias, src/src/extensions/tags.py lines 195-255: the
guild tag list before and after the command plus the response shown.
`name` and `alias` arrive already case-folded. The persisted update rewrites
the tag in place. -/
def tag_alias (tags : List Tag) (invoker : Nat) (name aliasName : List Char) :
    List Tag × TagAliasResponse :=
  match fetchTag tags aliasName with
  | some _ => (tags, .aliasTaken)
  | none =>
    match fetchTag tags name with
    | some tag =>
      if tag.owner_id = invoker then
        if !(tag.aliases.contains aliasName) && tag.aliases.length ≤ 5 then
          let tag2 : Tag := { tag with aliases := tag.aliases ++ [aliasName] }
          (tags.map (fun t => if t == tag then tag2 else t), .aliasCreated)
        else
          (tags, .tooManyAliases)
      else
        (tags, .invalidTag)
    | none => (tags, .invalidTag)

end Tags

namespace Reminders

/-- The slice of a reminder timer the join button handler touches:
src/src/extensions/reminders.py lines 140-216. `additional_recipients` is the
decoded notes list. -/
structure ReminderTimer where
  id : Nat
  user_id : Nat
  channel_id : Nat
  isReminderEvent : Bool
  additional_recipients : List Nat
deriving DecidableEq

/-- Responses of the Remind me too button branch. -/
inductive JoinResponse where
  | invalidInteraction
  | ownReminder
  | tooManyRecipients
  | signedUp
  | removed
deriving DecidableEq

/-- Translation of the RMAR (additional recipients) branch of
reminder_component_handler, src/src/extensions/reminders.py lines 139-216.
`timer = none` models get_timer raising ValueError; the result pairs the
updated timer (if any) with the response. -/
def reminder_join (timer : Option ReminderTimer) (clicker channel : Nat) :
    Option ReminderTimer × JoinResponse :=
  match timer with
  | none => (none, .invalidInteraction)
  | some t =>
    if t.channel_id ≠ channel ∨ ¬ t.isReminderEvent then
      (some t, .invalidInteraction)
    else if t.user_id = clicker then
      (some t, .ownReminder)
    else if !(t.additional_recipients.contains clicker) then
      if t.additional_recipients.length > 50 then
        (some t, .tooManyRecipients)
      else
        (some { t with additional_recipients := t.additional_recipients ++ [clicker] }, .signedUp)
    else
      (some { t with additional_recipients := t.additional_recipients.erase clicker }, .removed)

/-- Translation of the ping-target list of on_reminder,
src/src/extensions/reminders.py lines 409-415: the owner followed by every
additional recipient still present in the guild. -/
def to_ping (owner : Nat) (additional_recipients : List Nat) (present : Nat → Bool) :
    List Nat :=
  owner :: additional_recipients.filter present

end Reminders

namespace Starboard

/-- Per-guild starboard settings, src/src/extensions/starboard.py. -/
structure StarboardSettings where
  channel_id : Option Nat
  is_enabled : Bool
  star_limit : Nat
deriving DecidableEq

/-- A starboard entry row, keyed by the original message. -/
structure StarboardEntry where
  guild_id : Nat
  channel_id : Nat
  original_message_id : Nat
  entry_message_id : Nat
  force_starred : Bool
deriving DecidableEq

/-- STAR_MAPPING, src/src/extensions/starboard.py lines 22-27. -/
def STAR_MAPPING : List (Char × Nat) :=
  [('⭐', 0), ('🌟', 5), ('✨', 10), ('💫', 15)]

/-- The tier emoji chosen at line 70: the last mapping entry whose threshold
is at most the star count (the list is never empty because the first
threshold is 0). -/
def star_emoji (stars : Nat) : Char :=
  (((STAR_MAPPING.filter (fun p => decide (p.2 ≤ stars))).map Prod.fst).getLast?).getD '⭐'

/-- The rendered showcase content of create_starboard_payload line 72:
tier emoji, star count, and the "(Forced)" annotation. -/
structure StarPayload where
  emoji : Char
  stars : Nat
  forced : Bool
deriving DecidableEq

/-- Translation of create_starboard_payload as far as the claims need it:
the content line with its forced annotation. -/
def create_starboard_payload (stars : Nat) (force_starred : Bool) : StarPayload :=
  { emoji := star_emoji stars, stars := stars, forced := force_starred }

/-- Result of one star_message call: the surviving entry row for the original
message (none when the entry was deleted and not recreated) and the payload
posted or edited into the showcase channel, if any. -/
structure StarResult where
  entry : Option StarboardEntry
  rendered : Option StarPayload
deriving DecidableEq

/-- Translation of the creation branch of star_message,
src/src/extensions/starboard.py lines 149-162: if the star condition holds,
compose and post a new showcase message and record the entry. -/
def star_message_create (settings : StarboardSettings) (guild msgChannel msgId : Nat)
    (stars : Nat) (force_starred : Bool) (freshId : Nat) : StarResult :=
  if ¬ (settings.star_limit ≤ stars ∨ force_starred = true) then
    { entry := none, rendered := none }
  else
    { entry := some { guild_id := guild, channel_id := msgChannel,
                      original_message_id := msgId, entry_message_id := freshId,
                      force_starred := force_starred },
      rendered := some (create_starboard_payload stars force_starred) }

/-- Translation of star_message, src/src/extensions/starboard.py lines
116-176. `entry` is the fetched row for the original message;
`showcaseMissing` models the edit of the existing showcase message raising
NotFoundError; `freshId` is the id of a newly posted showcase message. The
closure is_starrable reads the rebound force_starred of line 164, so an
already-forced entry is starrable regardless of the count. On NotFoundError
the source deletes the entry and recurses WITHOUT passing force_starred
(line 176); the recursive call re-checks the unchanged settings gate and
refetches the now-deleted entry, so it lands in the creation branch with
force_starred defaulting to False, which `star_message_create` with
force_starred := false renders here. -/
def star_message (settings : StarboardSettings) (guild msgChannel msgId : Nat)
    (stars : Nat) (force_starred : Bool) (entry : Option StarboardEntry)
    (showcaseMissing : Bool) (freshId : Nat) : StarResult :=
  if settings.channel_id = none ∨ ¬ settings.is_enabled then
    { entry := entry, rendered := none }
  else
    match entry with
    | none => star_message_create settings guild msgChannel msgId stars force_starred freshId
    | some e =>
      let fs := e.force_starred || force_starred
      if ¬ (settings.star_limit ≤ stars ∨ fs = true) then
        { entry := some e, rendered := none }
      else if showcaseMissing then
        star_message_create settings guild msgChannel msgId stars false freshId
      else
        { entry := some e, rendered := some (create_starboard_payload stars fs) }

end Starboard

namespace ModActions

/-- MAX_TIMEOUT_SECONDS, src/src/models/mod_actions.py line 65. -/
def MAX_TIMEOUT_SECONDS : ℤ := 2246400

/-- Timer event discriminators relevant to the moderation engine. -/
inductive TimerEvent where
  | reminder
  | tempban
  | timeoutExtend
deriving DecidableEq

/-- A scheduler timer row. `notes` holds the integer timestamp carried by
timeout_extend timers; the source serializes it with str and parses it back
with int, a lossless round trip on integers. Tempban timers carry no notes. -/
structure Timer where
  id : Nat
  expires : ℤ
  event : TimerEvent
  guild_id : Nat
  user_id : Nat
  notes : Option ℤ
deriving DecidableEq

/-- Modelled from the spec: the flag bit names of DatabaseUserFlag
(src/models/db_user.py is not among the inspected sources); flags form a
bitmask and TIMEOUT_ON_JOIN is one bit of it. Python enum.Flag `^` is bitwise
xor with nonzero truthiness, which Nat.xor models. -/
def TIMEOUT_ON_JOIN : Nat := 1

/-- Outcome of the ModActions.timeout engine call: the value written to the
platform communication_disabled_until field and the timers scheduled
(create_timer inserts exactly one row per call, spec section 4.8). -/
structure TimeoutResult where
  communication_disabled_until : ℤ
  scheduled : List Timer
deriving DecidableEq

/-- Translation of ModActions.timeout, src/src/models/mod_actions.py lines
583-597 (the DM attempt does not affect the written field or the timers and
is omitted; the can_harm gate is the `canHarm` flag). `duration` is the
absolute requested expiry instant, compared against now + MAX_TIMEOUT_SECONDS;
the scheduled timer notes carry round(duration.timestamp()). Returns none when
can_harm raises. -/
def timeout (now duration : ℤ) (canHarm : Bool) (freshId guild user : Nat) :
    Option TimeoutResult :=
  if ¬ canHarm then none
  else if now + MAX_TIMEOUT_SECONDS < duration then
    some { communication_disabled_until := now + MAX_TIMEOUT_SECONDS,
           scheduled := [{ id := freshId, expires := now + MAX_TIMEOUT_SECONDS,
                           event := .timeoutExtend, guild_id := guild,
                           user_id := user, notes := some duration }] }
  else
    some { communication_disabled_until := duration, scheduled := [] }

/-- Outcome of the timeout_extend timer handler. -/
inductive ExtendOutcome where
  | skipped
  | extended (communication_disabled_until : ℤ) (scheduled : List Timer)
  | finalApplied (communication_disabled_until : ℤ)
  | stashed (newFlags : Nat) (timeout_expiry : ℤ)
  | alreadyStashed
deriving DecidableEq

/-- Translation of ModActions.timeout_extend, src/src/models/mod_actions.py
lines 292-340, after the discriminator and guild checks. `expiry` is
int(timer.notes); `memberPresent` is the cache lookup of the member;
`dbFlags` is the persisted flag bitmask used by the member-absent branch. -/
def timeout_extend (now expiry : ℤ) (memberPresent canHarm : Bool)
    (dbFlags : Nat) (freshId guild user : Nat) : ExtendOutcome :=
  if memberPresent then
    if ¬ canHarm then .skipped
    else if MAX_TIMEOUT_SECONDS < expiry - now then
      .extended (now + MAX_TIMEOUT_SECONDS)
        [{ id := freshId, expires := now + MAX_TIMEOUT_SECONDS,
           event := .timeoutExtend, guild_id := guild, user_id := user,
           notes := some expiry }]
    else
      .finalApplied (now + (expiry - now))
  else
    if Nat.xor TIMEOUT_ON_JOIN dbFlags ≠ 0 then
      .stashed (dbFlags ||| TIMEOUT_ON_JOIN) expiry
    else
      .alreadyStashed

/-- Outcome of the MemberCreateEvent rejoin handler. -/
inductive ReapplyOutcome where
  | skippedCannotHarm
  | skippedNoFlag
  | dropped (newFlags : Nat)
  | extended (communication_disabled_until : ℤ) (scheduled : List Timer) (newFlags : Nat)
  | applied (communication_disabled_until : ℤ) (newFlags : Nat)
deriving DecidableEq

/-- Translation of ModActions.reapply_timeout_extensions,
src/src/models/mod_actions.py lines 342-380. `stashedExpiry` models
db_user.data.get("timeout_expiry") with pop defaulting to 0. Note the final
branch passes `expiry` itself as the seconds delta
(communication_disabled_until = utcnow() + timedelta(seconds=expiry),
line 378), exactly as the source does. -/
def reapply_timeout_extensions (now : ℤ) (canHarm : Bool) (dbFlags : Nat)
    (stashedExpiry : Option ℤ) (freshId guild user : Nat) : ReapplyOutcome :=
  if ¬ canHarm then .skippedCannotHarm
  else if Nat.xor dbFlags TIMEOUT_ON_JOIN ≠ 0 then .skippedNoFlag
  else
    let expiry := stashedExpiry.getD 0
    let newFlags := Nat.xor dbFlags TIMEOUT_ON_JOIN
    if expiry - now < 0 then .dropped newFlags
    else if MAX_TIMEOUT_SECONDS < expiry - now then
      .extended (now + MAX_TIMEOUT_SECONDS)
        [{ id := freshId, expires := now + MAX_TIMEOUT_SECONDS,
           event := .timeoutExtend, guild_id := guild, user_id := user,
           notes := some expiry }]
        newFlags
    else
      .applied (now + expiry) newFlags

/-- Observable side effects of the ban operation, in program order. -/
inductive Effect where
  | dmSent
  | banRest (guild user : Nat) (delete_message_seconds : Nat)
  | unbanRest (guild user : Nat)
  | cancelTimer (id : Nat)
  | createTimer (t : Timer)
deriving DecidableEq

/-- The errors ModActions.ban raises before acting. -/
inductive BanError where
  | softWithDuration
  | botMissingBanPerms
  | roleHierarchy
deriving DecidableEq

/-- Inputs to ModActions.ban that the model needs: the target pair, the
optional tempban expiry, the soft flag, the message-deletion window, whether
the target resolved as a guild member, the two permission/hierarchy gates,
whether the DM is attempted, and whether the REST ban call fails. -/
structure BanInput where
  guild : Nat
  user : Nat
  duration : Option ℤ
  soft : Bool
  days_to_delete : Nat
  isMember : Bool
  permsOk : Bool
  hierarchyOk : Bool
  dmAttempted : Bool
  restFails : Bool
deriving DecidableEq

/-- Result of a ban call that did not raise: the surviving timer table, the
effects performed, and whether the success embed was returned (false models
the failure embed of the except branch). -/
structure BanResult where
  timers : List Timer
  effects : List Effect
  success : Bool
deriving DecidableEq

/-- The tempban-timer row filter of the fetchrow query at lines 700-705. -/
def tempbanFor (guild user : Nat) (t : Timer) : Bool :=
  t.guild_id == guild && t.user_id == user && t.event == TimerEvent.tempban

/-- Translation of ModActions.ban, src/src/models/mod_actions.py lines
620-725. `timers` is the persisted timer table (spec section 4.8:
create_timer inserts a row, cancel_timer deletes the row by id). fetchrow
returns the first matching row; cancel_timer deletes every row carrying that
id. The single modelled REST failure point is ban_user (line 696), which
returns the failure embed with no timer mutation. -/
def ban (timers : List Timer) (freshId : Nat) (inp : BanInput) :
    Except BanError BanResult :=
  if inp.duration.isSome ∧ inp.soft then Except.error .softWithDuration
  else if ¬ inp.permsOk then Except.error .botMissingBanPerms
  else if inp.isMember ∧ ¬ inp.hierarchyOk then Except.error .roleHierarchy
  else
    let dmFx : List Effect := if inp.dmAttempted then [.dmSent] else []
    if inp.restFails then Except.ok { timers := timers, effects := dmFx, success := false }
    else
      let fx1 := dmFx ++ [Effect.banRest inp.guild inp.user (inp.days_to_delete * 86400)]
      let found := (timers.filter (tempbanFor inp.guild inp.user)).head?
      let timers1 := match found with
        | some t => timers.filter (fun x => !(x.id == t.id))
        | none => timers
      let fx2 := fx1 ++ (match found with
        | some t => [Effect.cancelTimer t.id]
        | none => [])
      if inp.soft then
        Except.ok { timers := timers1,
                    effects := fx2 ++ [Effect.unbanRest inp.guild inp.user],
                    success := true }
      else
        match inp.duration with
        | some d =>
          let newTimer : Timer :=
            { id := freshId, expires := d, event := .tempban,
              guild_id := inp.guild, user_id := inp.user, notes := none }
          Except.ok { timers := timers1 ++ [newTimer],
                      effects := fx2 ++ [Effect.createTimer newTimer],
                      success := true }
        | none =>
          Except.ok { timers := timers1, effects := fx2, success := true }

end ModActions

end Sned

namespace Sned

/- Shared helper lemmas -/

theorem truncated_length_le (ml : Nat) (h3 : 3 ≤ ml) (s : List Char) :
    (Helpers.truncated ml s).length ≤ ml := by
  unfold Helpers.truncated
  by_cases h : ml < s.length
  · rw [if_pos h]
    have he : (("...").toList).length = 3 := rfl
    simp only [List.length_append, List.length_take, he]
    omega
  · rw [if_neg h]
    omega

theorem format_reason_none_eq (reason : Option (List Char)) :
    Helpers.format_reason reason none (some 512) =
      Helpers.truncated 512 (Helpers.defaultedReason reason) := by
  have h512 : (0 : Nat) < 512 := by norm_num
  cases reason with
  | none => simp [Helpers.format_reason, Helpers.defaultedReason, Helpers.truncated, h512]
  | some s =>
    by_cases hs : s = [] <;>
      simp [Helpers.format_reason, Helpers.defaultedReason, Helpers.truncated, h512, hs]

theorem format_reason_some_eq (reason : Option (List Char)) (m : Helpers.Member) :
    Helpers.format_reason reason (some m) (some 512) =
      Helpers.truncated 512 (Helpers.moderatorTag m ++ Helpers.defaultedReason reason) := by
  have h512 : (0 : Nat) < 512 := by norm_num
  cases reason with
  | none => simp [Helpers.format_reason, Helpers.defaultedReason, Helpers.truncated, h512]
  | some s =>
    by_cases hs : s = [] <;>
      simp [Helpers.format_reason, Helpers.defaultedReason, Helpers.truncated, h512, hs]

/-- C6: format_reason defaults an empty or missing reason to
"No reason provided.", prefixes the moderator tag exactly when a moderator is
supplied, truncates with an ellipsis past max_length = 512, and the returned
length never exceeds 512. -/
theorem format_reason_contract (reason : Option (List Char)) (m : Helpers.Member) :
    Helpers.format_reason none none (some 512) = ("No reason provided.").toList ∧
    Helpers.format_reason (some []) none (some 512) = ("No reason provided.").toList ∧
    Helpers.format_reason reason (some m) (some 512) =
      Helpers.truncated 512 (Helpers.moderatorTag m ++ Helpers.defaultedReason reason) ∧
    Helpers.format_reason reason none (some 512) =
      Helpers.truncated 512 (Helpers.defaultedReason reason) ∧
    (Helpers.format_reason reason (some m) (some 512)).length ≤ 512 ∧
    (Helpers.format_reason reason none (some 512)).length ≤ 512 := by
  refine ⟨rfl, rfl, format_reason_some_eq reason m, format_reason_none_eq reason, ?_, ?_⟩
  · rw [format_reason_some_eq reason m]
    exact truncated_length_le 512 (by norm_num) _
  · rw [format_reason_none_eq reason]
    exact truncated_length_le 512 (by norm_num) _

end Sned

namespace Sned

theorem pyInt_eq_floor (q : ℚ) (h : 0 ≤ q) : FunExt.pyInt q = Int.floor q := by
  unfold FunExt.pyInt
  rw [if_neg (not_lt.mpr h)]

theorem count_progress_bar (v : ℚ) :
    (FunExt.progress_bar v).count '█' = (FunExt.rounded_comf v).toNat := by
  have h1 : ¬ ('█' = ' ') := by decide
  have h2 : ¬ (' ' = '█') := by decide
  simp [FunExt.progress_bar, List.count_append, List.count_replicate_self,
    List.count_replicate, h1, h2]

theorem rounded_comf_53 : FunExt.rounded_comf 53 = 10 := by
  have he : FunExt.rounded_comf 53 =
      Int.floor ((53 : ℚ) * (FunExt.COMF_PROGRESS_BAR_WIDTH : ℚ) / 100) :=
    pyInt_eq_floor _ (by norm_num [FunExt.COMF_PROGRESS_BAR_WIDTH])
  rw [he, Int.floor_eq_iff]
  norm_num [FunExt.COMF_PROGRESS_BAR_WIDTH]

/-- C9 counterexample: at an oracle value of 53 percent the gauge fills
int(53 * 20 / 100) = 10 cells, while the claimed round(53 * 20 / 100) is 11,
so the filled-cell count is not given by rounding. -/
theorem comf_gauge_counterexample :
    ((FunExt.progress_bar 53).count '█' : ℤ) = 10 ∧
    round ((53 : ℚ) * (FunExt.COMF_PROGRESS_BAR_WIDTH : ℚ) / 100) = 11 ∧
    ((FunExt.progress_bar 53).count '█' : ℤ) ≠
      round ((53 : ℚ) * (FunExt.COMF_PROGRESS_BAR_WIDTH : ℚ) / 100) := by
  have hc : ((FunExt.progress_bar 53).count '█' : ℤ) = 10 := by
    rw [count_progress_bar, rounded_comf_53]
    rfl
  have hr : round ((53 : ℚ) * (FunExt.COMF_PROGRESS_BAR_WIDTH : ℚ) / 100) = 11 := by
    rw [round_eq, Int.floor_eq_iff]
    norm_num [FunExt.COMF_PROGRESS_BAR_WIDTH]
  refine ⟨hc, hr, ?_⟩
  rw [hc, hr]
  decide

/-- C9 amended: for every oracle percentage between 0 and 100, the rendered
gauge is exactly 20 characters wide and the number of filled cells equals
the TRUNCATION int(value * 20 / 100) of the scaled value, not its rounding. -/
theorem comf_gauge_amended (v : ℚ) (h0 : 0 ≤ v) (h1 : v ≤ 100) :
    (FunExt.progress_bar v).length = 20 ∧
    ((FunExt.progress_bar v).count '█' : ℤ) =
      FunExt.pyInt (v * (FunExt.COMF_PROGRESS_BAR_WIDTH : ℚ) / 100) := by
  have hq0 : 0 ≤ v * (FunExt.COMF_PROGRESS_BAR_WIDTH : ℚ) / 100 :=
    div_nonneg (mul_nonneg h0 (by norm_num)) (by norm_num)
  have hrf : FunExt.rounded_comf v = Int.floor (v * (FunExt.COMF_PROGRESS_BAR_WIDTH : ℚ) / 100) :=
    pyInt_eq_floor _ hq0
  have hr0 : 0 ≤ FunExt.rounded_comf v := by
    rw [hrf]
    exact Int.floor_nonneg.mpr hq0
  have hr20 : FunExt.rounded_comf v ≤ 20 := by
    rw [hrf]
    have hc : (FunExt.COMF_PROGRESS_BAR_WIDTH : ℚ) = 20 := by
      norm_num [FunExt.COMF_PROGRESS_BAR_WIDTH]
    have hle : v * (FunExt.COMF_PROGRESS_BAR_WIDTH : ℚ) / 100 ≤ 20 := by
      rw [hc]
      linarith
    calc Int.floor (v * (FunExt.COMF_PROGRESS_BAR_WIDTH : ℚ) / 100)
        ≤ Int.floor (20 : ℚ) := Int.floor_le_floor hle
      _ = 20 := by norm_num
  constructor
  · simp only [FunExt.progress_bar, List.length_append, List.length_replicate]
    simp only [FunExt.COMF_PROGRESS_BAR_WIDTH] at hr20 ⊢
    omega
  · rw [count_progress_bar, Int.toNat_of_nonneg hr0]
    rfl

/-- Witness for C9 amended at the concrete oracle value 10. -/
theorem comf_gauge_amended_witness :
    (FunExt.progress_bar 10).length = 20 ∧
    ((FunExt.progress_bar 10).count '█' : ℤ) =
      FunExt.pyInt (10 * (FunExt.COMF_PROGRESS_BAR_WIDTH : ℚ) / 100) :=
  comf_gauge_amended 10 (by norm_num) (by norm_num)

/-- C7: a caller-missing-permissions error always yields the Missing
Permissions response carrying exactly the names of the missing permission
bits, and never the generic unhandled-exception response. -/
theorem missing_permissions_mapping (perms : List CommandHandler.Permission) :
    CommandHandler.application_error_handler (.invokerMissingPermissions perms) =
      CommandHandler.Response.missingPermissions (perms.map CommandHandler.get_perm_str) ∧
    ∀ text : List Char,
      CommandHandler.application_error_handler (.invokerMissingPermissions perms) ≠
        CommandHandler.Response.unhandledException text := by
  refine ⟨rfl, fun text h => ?_⟩
  simp [CommandHandler.application_error_handler] at h

end Sned

namespace Sned

/-- C4 failing input: a tag that already holds 5 aliases. The /tags alias
command accepts a sixth distinct alias (the guard of src/src/extensions/tags.py
line 221 reads len(tag.aliases) <= 5) and the alias list grows to 6, while the
command claims a cap of 5 in its own Too many aliases message. -/
theorem tag_alias_sixth_alias_accepted :
    (Tags.tag_alias
      [⟨1, ("t").toList, 42,
        [("a1").toList, ("a2").toList, ("a3").toList, ("a4").toList, ("a5").toList]⟩]
      42 (("t").toList) (("b").toList)).2 = Tags.TagAliasResponse.aliasCreated ∧
    ((Tags.tag_alias
      [⟨1, ("t").toList, 42,
        [("a1").toList, ("a2").toList, ("a3").toList, ("a4").toList, ("a5").toList]⟩]
      42 (("t").toList) (("b").toList)).1.map (fun t => t.aliases.length)) = [6] :=
  ⟨rfl, rfl⟩

/-- C5 failing input: a reminder whose recipient list already holds exactly 50
users. A further distinct non-owner click is accepted (the guard of
src/src/extensions/reminders.py line 180 reads len > 50) and the list grows to
51, while the rejection message documents a cap of 50. -/
theorem reminder_join_exceeds_cap :
    (Reminders.reminder_join (some ⟨1, 200, 7, true, List.range 50⟩) 100 7).2 =
      Reminders.JoinResponse.signedUp ∧
    ((Reminders.reminder_join (some ⟨1, 200, 7, true, List.range 50⟩) 100 7).1.map
      (fun t => t.additional_recipients.length)) = some 51 ∧
    (Reminders.to_ping 200 (List.range 50 ++ [100]) (fun _ => true)).length = 52 :=
  ⟨rfl, rfl, rfl⟩

/-- C3 failing input: a member rejoins at epoch second 1000 carrying the
timeout-pending flag with a stashed expiry of epoch second 1500 (500 seconds
remaining, far below the ceiling). The rejoin handler writes
communication_disabled_until = now + expiry = 2500 (it passes the absolute
stashed timestamp as a seconds delta, src/src/models/mod_actions.py line 378)
instead of ending the timeout at the stashed instant 1500. -/
theorem reapply_timeout_misapplies_expiry :
    ModActions.reapply_timeout_extensions 1000 true ModActions.TIMEOUT_ON_JOIN
      (some 1500) 7 2 3 = ModActions.ReapplyOutcome.applied (1000 + 1500) 0 ∧
    (1000 + 1500 : ℤ) ≠ 1500 :=
  ⟨rfl, by decide⟩

/-- C2 counterexample: a force-starred entry whose showcase message has been
deleted. The self-healing path of star_message deletes the stale entry and
recreates it via the recursive call of src/src/extensions/starboard.py line
176, which does not pass force_starred, so the recreated entry carries
force_starred = false even though the old entry had it true. -/
theorem force_starred_lost_on_heal :
    (⟨1, 2, 3, 4, true⟩ : Starboard.StarboardEntry).force_starred = true ∧
    (Starboard.star_message ⟨some 10, true, 3⟩ 1 2 3 5 false
        (some ⟨1, 2, 3, 4, true⟩) true 99).entry = some ⟨1, 2, 3, 99, false⟩ ∧
    ((Starboard.star_message ⟨some 10, true, 3⟩ 1 2 3 5 false
        (some ⟨1, 2, 3, 4, true⟩) true 99).entry.map
      Starboard.StarboardEntry.force_starred) ≠ some true :=
  ⟨rfl, rfl, by decide⟩

/-- C2 amended: while the showcase message still exists, every star-count
driven refresh leaves a force-starred entry row untouched and renders it as
forced; only the self-healing recreation (showcase message missing) loses the
flag, recreating the entry with force_starred = false when the count meets the
threshold and dropping it entirely otherwise. -/
theorem force_starred_sticky_amended (settings : Starboard.StarboardSettings)
    (guild msgChannel msgId stars freshId : Nat) (fs2 : Bool)
    (e : Starboard.StarboardEntry) (hforced : e.force_starred = true)
    (hch : settings.channel_id ≠ none) (hen : settings.is_enabled = true) :
    (Starboard.star_message settings guild msgChannel msgId stars fs2
        (some e) false freshId).entry = some e ∧
    (Starboard.star_message settings guild msgChannel msgId stars fs2
        (some e) false freshId).rendered =
      some (Starboard.create_starboard_payload stars true) := by
  unfold Starboard.star_message
  rw [if_neg (by simp [hch, hen])]
  simp only [hforced, Bool.true_or]
  rw [if_neg (by simp), if_neg (by simp)]
  exact ⟨rfl, rfl⟩

/-- Witness for C2 amended: a concrete forced entry refreshed at 1 star with
the showcase message still present. -/
theorem force_starred_sticky_amended_witness :
    (Starboard.star_message ⟨some 10, true, 3⟩ 1 2 3 1 false
        (some ⟨1, 2, 3, 4, true⟩) false 99).entry = some ⟨1, 2, 3, 4, true⟩ ∧
    (Starboard.star_message ⟨some 10, true, 3⟩ 1 2 3 1 false
        (some ⟨1, 2, 3, 4, true⟩) false 99).rendered =
      some (Starboard.create_starboard_payload 1 true) :=
  force_starred_sticky_amended ⟨some 10, true, 3⟩ 1 2 3 1 99 false ⟨1, 2, 3, 4, true⟩
    rfl (by decide) rfl

end Sned

namespace Sned

/-- C1: the timeout chunking contract. For a requested duration d measured
from now: at or below the ceiling the platform field is set directly to
now + d with no timer; above the ceiling the field is set to now + ceiling
and exactly one timeout_extend timer is scheduled carrying the true absolute
expiry in its notes; when that timer fires with the member present and
harmable, the handler schedules exactly one further extension re-applying the
ceiling while the remaining time still exceeds it, and otherwise applies the
exact remaining duration (ending at the true expiry) with no further timer. -/
theorem timeout_chunking (now d : ℤ) (freshId guild user : Nat) :
    (d ≤ ModActions.MAX_TIMEOUT_SECONDS →
      ModActions.timeout now (now + d) true freshId guild user =
        some ⟨now + d, []⟩) ∧
    (ModActions.MAX_TIMEOUT_SECONDS < d →
      ModActions.timeout now (now + d) true freshId guild user =
        some ⟨now + ModActions.MAX_TIMEOUT_SECONDS,
          [⟨freshId, now + ModActions.MAX_TIMEOUT_SECONDS, .timeoutExtend, guild, user,
            some (now + d)⟩]⟩) ∧
    (∀ now2 expiry : ℤ, ∀ f2 df : Nat,
      ModActions.MAX_TIMEOUT_SECONDS < expiry - now2 →
      ModActions.timeout_extend now2 expiry true true df f2 guild user =
        .extended (now2 + ModActions.MAX_TIMEOUT_SECONDS)
          [⟨f2, now2 + ModActions.MAX_TIMEOUT_SECONDS, .timeoutExtend, guild, user,
            some expiry⟩]) ∧
    (∀ now2 expiry : ℤ, ∀ f2 df : Nat,
      expiry - now2 ≤ ModActions.MAX_TIMEOUT_SECONDS →
      ModActions.timeout_extend now2 expiry true true df f2 guild user =
        .finalApplied expiry) := by
  refine ⟨fun h => ?_, fun h => ?_, fun now2 expiry f2 df h => ?_,
    fun now2 expiry f2 df h => ?_⟩
  · unfold ModActions.timeout
    rw [if_neg (by simp), if_neg (by omega)]
  · unfold ModActions.timeout
    rw [if_neg (by simp), if_pos (by omega)]
  · unfold ModActions.timeout_extend
    rw [if_pos (by simp), if_neg (by simp), if_pos h]
  · unfold ModActions.timeout_extend
    rw [if_pos (by simp), if_neg (by simp), if_neg (by omega)]
    have he : now2 + (expiry - now2) = expiry := by ring
    rw [he]

/-- Witness for C1 at concrete inputs: a 1000-second timeout applies
directly; a timeout to epoch 3000000 from epoch 0 chunks once; a firing
extension with 753600 seconds left applies the exact remainder; one with
5000000 seconds left extends again. -/
theorem timeout_chunking_witness :
    ModActions.timeout 0 (0 + 1000) true 1 2 3 = some ⟨0 + 1000, []⟩ ∧
    ModActions.timeout 0 (0 + 3000000) true 1 2 3 =
      some ⟨0 + ModActions.MAX_TIMEOUT_SECONDS,
        [⟨1, 0 + ModActions.MAX_TIMEOUT_SECONDS, .timeoutExtend, 2, 3,
          some (0 + 3000000)⟩]⟩ ∧
    ModActions.timeout_extend 2246400 3000000 true true 0 4 2 3 =
      .finalApplied 3000000 ∧
    ModActions.timeout_extend 0 5000000 true true 0 4 2 3 =
      .extended (0 + ModActions.MAX_TIMEOUT_SECONDS)
        [⟨4, 0 + ModActions.MAX_TIMEOUT_SECONDS, .timeoutExtend, 2, 3,
          some 5000000⟩] :=
  ⟨(timeout_chunking 0 1000 1 2 3).1 (by decide),
   ((timeout_chunking 0 3000000 1 2 3).2.1) (by decide),
   ((timeout_chunking 0 0 1 2 3).2.2.2) 2246400 3000000 4 0 (by decide),
   ((timeout_chunking 0 0 1 2 3).2.2.1) 0 5000000 4 0 (by decide)⟩

/-- C8: calling ban with a duration and soft = True simultaneously raises the
RuntimeError before any effect: no result record (hence no REST call, no DM,
no timer mutation) is produced. -/
theorem ban_rejects_soft_with_duration (timers : List ModActions.Timer)
    (freshId : Nat) (inp : ModActions.BanInput)
    (hdur : inp.duration.isSome = true) (hsoft : inp.soft = true) :
    ModActions.ban timers freshId inp =
      Except.error ModActions.BanError.softWithDuration ∧
    ∀ r : ModActions.BanResult, ModActions.ban timers freshId inp ≠ Except.ok r := by
  have hb : ModActions.ban timers freshId inp =
      Except.error ModActions.BanError.softWithDuration := by
    unfold ModActions.ban
    rw [if_pos ⟨hdur, hsoft⟩]
  exact ⟨hb, fun r h => by rw [hb] at h; exact Except.noConfusion h⟩

/-- Witness for C8: a concrete tempban-plus-soft call against a nonempty
timer table. -/
theorem ban_rejects_soft_with_duration_witness :
    ModActions.ban [⟨5, 999, .tempban, 1, 2, none⟩] 9
        ⟨1, 2, some 5000, true, 0, true, true, true, false, false⟩ =
      Except.error ModActions.BanError.softWithDuration ∧
    ∀ r : ModActions.BanResult,
      ModActions.ban [⟨5, 999, .tempban, 1, 2, none⟩] 9
          ⟨1, 2, some 5000, true, 0, true, true, true, false, false⟩ ≠
        Except.ok r :=
  ban_rejects_soft_with_duration [⟨5, 999, .tempban, 1, 2, none⟩] 9
    ⟨1, 2, some 5000, true, 0, true, true, true, false, false⟩ rfl rfl

end Sned

namespace Sned

theorem filter_take_one {α : Type} (p : α → Bool) (l : List α) (t : α) (rest : List α)
    (hfe : l.filter p = t :: rest) (hle : (l.filter p).length ≤ 1) :
    l.filter p = [t] := by
  rw [hfe] at hle ⊢
  cases rest with
  | nil => rfl
  | cons b bs => simp at hle

theorem filter_erase_id (l : List ModActions.Timer) (p : ModActions.Timer → Bool)
    (t : ModActions.Timer) (hfp : l.filter p = [t]) :
    (l.filter (fun x => !(x.id == t.id))).filter p = [] := by
  have h1 : (l.filter (fun x => !(x.id == t.id))).filter p
      = (l.filter p).filter (fun x => !(x.id == t.id)) := by
    simp [List.filter_filter, Bool.and_comm]
  rw [h1, hfp]
  simp

/-- C10: every successful ban (plain, soft, and temp alike) cancels the
pre-existing tempban timer for the same guild/user pair before completing;
afterwards a plain or soft ban leaves no pending tempban timer for the pair,
and a tempban leaves exactly the newly scheduled timer. The hypothesis that at
most one such timer is pending is the invariant maintained by ban itself, the
only creator of tempban timers. -/
theorem ban_cancels_stale_tempban (timers : List ModActions.Timer) (freshId : Nat)
    (inp : ModActions.BanInput)
    (huniq : (timers.filter (ModActions.tempbanFor inp.guild inp.user)).length ≤ 1)
    (hns : ¬ (inp.duration.isSome ∧ inp.soft))
    (hperm : inp.permsOk = true) (hhier : inp.hierarchyOk = true)
    (hrest : inp.restFails = false) :
    ∃ r : ModActions.BanResult,
      ModActions.ban timers freshId inp = Except.ok r ∧
      r.success = true ∧
      (∀ t ∈ timers, ModActions.tempbanFor inp.guild inp.user t = true →
        ModActions.Effect.cancelTimer t.id ∈ r.effects) ∧
      (inp.duration = none →
        r.timers.filter (ModActions.tempbanFor inp.guild inp.user) = []) ∧
      (∀ d : ℤ, inp.duration = some d →
        r.timers.filter (ModActions.tempbanFor inp.guild inp.user) =
          [⟨freshId, d, .tempban, inp.guild, inp.user, none⟩]) := by
  have hnewp : ∀ d : ℤ, ModActions.tempbanFor inp.guild inp.user
      ⟨freshId, d, .tempban, inp.guild, inp.user, none⟩ = true := by
    intro d
    simp [ModActions.tempbanFor]
  cases hfe : timers.filter (ModActions.tempbanFor inp.guild inp.user) with
  | nil =>
    have hvac : ∀ t ∈ timers, ModActions.tempbanFor inp.guild inp.user t = true → False := by
      intro t ht hpt
      have hm : t ∈ timers.filter (ModActions.tempbanFor inp.guild inp.user) :=
        List.mem_filter.mpr ⟨ht, hpt⟩
      rw [hfe] at hm
      simp at hm
    cases hsoft : inp.soft with
    | true =>
      cases hdur : inp.duration with
      | some d => exact absurd ⟨by simp [hdur], hsoft⟩ hns
      | none =>
        have hb : ModActions.ban timers freshId inp = Except.ok
            { timers := timers,
              effects := (if inp.dmAttempted then [ModActions.Effect.dmSent] else []) ++
                [ModActions.Effect.banRest inp.guild inp.user (inp.days_to_delete * 86400),
                 ModActions.Effect.unbanRest inp.guild inp.user],
              success := true } := by
          simp [ModActions.ban, hfe, hsoft, hdur, hperm, hhier, hrest]
        refine ⟨_, hb, rfl, fun t ht hpt => (hvac t ht hpt).elim, fun _ => hfe, ?_⟩
        exact fun d hd => Option.noConfusion hd
    | false =>
      cases hdur : inp.duration with
      | none =>
        have hb : ModActions.ban timers freshId inp = Except.ok
            { timers := timers,
              effects := (if inp.dmAttempted then [ModActions.Effect.dmSent] else []) ++
                [ModActions.Effect.banRest inp.guild inp.user (inp.days_to_delete * 86400)],
              success := true } := by
          simp [ModActions.ban, hfe, hsoft, hdur, hperm, hhier, hrest]
        refine ⟨_, hb, rfl, fun t ht hpt => (hvac t ht hpt).elim, fun _ => hfe, ?_⟩
        exact fun d hd => Option.noConfusion hd
      | some d =>
        have hb : ModActions.ban timers freshId inp = Except.ok
            { timers := timers ++ [⟨freshId, d, .tempban, inp.guild, inp.user, none⟩],
              effects := (if inp.dmAttempted then [ModActions.Effect.dmSent] else []) ++
                [ModActions.Effect.banRest inp.guild inp.user (inp.days_to_delete * 86400),
                 ModActions.Effect.createTimer ⟨freshId, d, .tempban, inp.guild, inp.user, none⟩],
              success := true } := by
          simp [ModActions.ban, hfe, hsoft, hdur, hperm, hhier, hrest]
        refine ⟨_, hb, rfl, fun t ht hpt => (hvac t ht hpt).elim, ?_, ?_⟩
        · exact fun hd => Option.noConfusion hd
        · intro d2 hd2
          injection hd2 with hdd
          subst hdd
          show (timers ++ [(⟨freshId, d, .tempban, inp.guild, inp.user, none⟩ : ModActions.Timer)]).filter
              (ModActions.tempbanFor inp.guild inp.user) = _
          rw [List.filter_append, hfe]
          simp [hnewp d]
  | cons t rest =>
    have hsing : timers.filter (ModActions.tempbanFor inp.guild inp.user) = [t] :=
      filter_take_one _ _ _ _ hfe huniq
    have hmem : ∀ t2 ∈ timers, ModActions.tempbanFor inp.guild inp.user t2 = true → t2 = t := by
      intro t2 ht2 hpt2
      have hm : t2 ∈ timers.filter (ModActions.tempbanFor inp.guild inp.user) :=
        List.mem_filter.mpr ⟨ht2, hpt2⟩
      rw [hsing] at hm
      simpa using hm
    have herase : ((timers.filter (fun x => !(x.id == t.id))).filter
        (ModActions.tempbanFor inp.guild inp.user)) = [] :=
      filter_erase_id _ _ _ hsing
    cases hsoft : inp.soft with
    | true =>
      cases hdur : inp.duration with
      | some d => exact absurd ⟨by simp [hdur], hsoft⟩ hns
      | none =>
        have hb : ModActions.ban timers freshId inp = Except.ok
            { timers := timers.filter (fun x => !(x.id == t.id)),
              effects := (if inp.dmAttempted then [ModActions.Effect.dmSent] else []) ++
                [ModActions.Effect.banRest inp.guild inp.user (inp.days_to_delete * 86400),
                 ModActions.Effect.cancelTimer t.id,
                 ModActions.Effect.unbanRest inp.guild inp.user],
              success := true } := by
          simp [ModActions.ban, hsing, hsoft, hdur, hperm, hhier, hrest]
        refine ⟨_, hb, rfl, ?_, fun _ => herase, ?_⟩
        · intro t2 ht2 hpt2
          rw [hmem t2 ht2 hpt2]
          cases inp.dmAttempted <;> simp
        · exact fun d hd => Option.noConfusion hd
    | false =>
      cases hdur : inp.duration with
      | none =>
        have hb : ModActions.ban timers freshId inp = Except.ok
            { timers := timers.filter (fun x => !(x.id == t.id)),
              effects := (if inp.dmAttempted then [ModActions.Effect.dmSent] else []) ++
                [ModActions.Effect.banRest inp.guild inp.user (inp.days_to_delete * 86400),
                 ModActions.Effect.cancelTimer t.id],
              success := true } := by
          simp [ModActions.ban, hsing, hsoft, hdur, hperm, hhier, hrest]
        refine ⟨_, hb, rfl, ?_, fun _ => herase, ?_⟩
        · intro t2 ht2 hpt2
          rw [hmem t2 ht2 hpt2]
          cases inp.dmAttempted <;> simp
        · exact fun d hd => Option.noConfusion hd
      | some d =>
        have hb : ModActions.ban timers freshId inp = Except.ok
            { timers := timers.filter (fun x => !(x.id == t.id)) ++
                [⟨freshId, d, .tempban, inp.guild, inp.user, none⟩],
              effects := (if inp.dmAttempted then [ModActions.Effect.dmSent] else []) ++
                [ModActions.Effect.banRest inp.guild inp.user (inp.days_to_delete * 86400),
                 ModActions.Effect.cancelTimer t.id,
                 ModActions.Effect.createTimer ⟨freshId, d, .tempban, inp.guild, inp.user, none⟩],
              success := true } := by
          simp [ModActions.ban, hsing, hsoft, hdur, hperm, hhier, hrest]
        refine ⟨_, hb, rfl, ?_, ?_, ?_⟩
        · intro t2 ht2 hpt2
          rw [hmem t2 ht2 hpt2]
          cases inp.dmAttempted <;> simp
        · exact fun hd => Option.noConfusion hd
        · intro d2 hd2
          injection hd2 with hdd
          subst hdd
          show (timers.filter (fun x => !(x.id == t.id)) ++
              [(⟨freshId, d, .tempban, inp.guild, inp.user, none⟩ : ModActions.Timer)]).filter
              (ModActions.tempbanFor inp.guild inp.user) = _
          rw [List.filter_append, herase]
          simp [hnewp d]

/-- Witness for C10: a plain ban against a table holding one stale tempban
timer for the same pair. -/
theorem ban_cancels_stale_tempban_witness :
    ∃ r : ModActions.BanResult,
      ModActions.ban [⟨5, 999, .tempban, 1, 2, none⟩] 9
          ⟨1, 2, none, false, 0, true, true, true, true, false⟩ = Except.ok r ∧
      r.success = true ∧
      (∀ t ∈ [(⟨5, 999, .tempban, 1, 2, none⟩ : ModActions.Timer)],
        ModActions.tempbanFor 1 2 t = true →
          ModActions.Effect.cancelTimer t.id ∈ r.effects) ∧
      ((none : Option ℤ) = none → r.timers.filter (ModActions.tempbanFor 1 2) = []) ∧
      (∀ d : ℤ, (none : Option ℤ) = some d →
        r.timers.filter (ModActions.tempbanFor 1 2) = [⟨9, d, .tempban, 1, 2, none⟩]) :=
  ban_cancels_stale_tempban [⟨5, 999, .tempban, 1, 2, none⟩] 9
    ⟨1, 2, none, false, 0, true, true, true, true, false⟩ (by decide) (by decide) rfl rfl rfl

end Sned
